import Mathlib

/-!
# Shallow embedding of the lab-data normalization engine

This file embeds the core of the `normalize_lab_data` tool
(`lab_data_normalizer.py` and `normalize_lab_data.py`) in Lean 4 and
proves properties of the embedded code.

Modelling choices:
* Numeric values (measured values, conversion factors, confidence
  scores, range bounds) are rationals (`Rat`); multiplication and
  averaging in the source are exact on the embedded numbers.
* The three read-only reference tables are lists of rows; the SQL
  queries of the source become list lookups that mirror the `WHERE`,
  `ORDER BY` and `LIMIT 1` clauses.
* The normalizer's mutable `operations_log` buffer is passed and
  returned explicitly by each stage.
* Python truthiness tests (`if not canonical_name`, `if not
  original_unit`, `if result['range_min']`) are embedded as explicit
  falsiness checks on `Option String` / `Option Rat` values.
* Database writes of the orchestrator are recorded in an `Effects`
  value.  The single modelled fault source is the
  `INSERT INTO normalized_parameters` statement raising an exception
  (field `insert_normalized_raises` of the database), which drives the
  `except Exception` path of `normalize_lab_data`.
-/

namespace LabNorm

/-- A row of `parameter_name_mappings`. -/
structure NameMapping where
  variant_name : String
  canonical_name : String
  confidence_score : Rat
  deriving Repr, DecidableEq

/-- A row of `unit_conversion_rules`. -/
structure UnitConversionRule where
  canonical_parameter_name : String
  source_unit : String
  target_unit : String
  conversion_factor : Rat
  confidence_score : Rat
  deriving Repr, DecidableEq

/-- A row of `standard_reference_ranges`; `range_min`/`range_max` are
`Option` because the columns are nullable. -/
structure StandardReferenceRange where
  canonical_parameter_name : String
  standard_unit : String
  range_min : Option Rat
  range_max : Option Rat
  confidence_score : Rat
  deriving Repr, DecidableEq

/-- The database visible to the normalizer: the three read-only
reference tables, plus one fault knob modelling the
`INSERT INTO normalized_parameters` statement raising an exception. -/
structure DB where
  parameter_name_mappings : List NameMapping
  unit_conversion_rules : List UnitConversionRule
  standard_reference_ranges : List StandardReferenceRange
  insert_normalized_raises : Bool
  deriving Repr, DecidableEq

/-- One entry of the in-memory `operations_log` buffer, exactly the
dictionary built by `LabDataNormalizer._log_operation`. -/
structure OperationLogEntry where
  parameter_id : String
  operation : String
  status : String
  original_value : Option Rat
  original_unit : Option String
  original_name : Option String
  normalized_value : Option Rat
  standard_unit : Option String
  canonical_name : Option String
  conversion_factor : Option Rat
  failure_reason : Option String
  deriving Repr, DecidableEq

/-- SQL `LOWER()` / Python `str.lower()`: lower-case every character.
(Defined on the character list so that the kernel can evaluate it.) -/
def strLower (s : String) : String := ⟨s.data.map Char.toLower⟩

/-- Python truthiness of an optional string: `None` and `""` are falsy
(`if not canonical_name`, `if not original_unit`). -/
def pyTruthyStr : Option String → Bool
  | none => false
  | some s => !(s == "")

/-- Embeds `float(x) if x else None` on a nullable numeric column:
`NULL` and `0` are falsy and become `None`. -/
def pyTruthyRat : Option Rat → Option Rat
  | none => none
  | some v => if v == 0 then none else some v

/-- Python `str()` of an `Optional[str]` as used by the f-string
`f"Could not convert unit: {unit}"`. -/
def pyStrOptStr : Option String → String
  | none => "None"
  | some s => s

/-- The query of `normalize_parameter_name`:
`WHERE LOWER(variant_name) = LOWER(%s) ORDER BY confidence_score DESC
LIMIT 1` — among the case-insensitive matches, the first row of
maximal `confidence_score`. -/
def queryNameMapping (db : DB) (original_name : String) : Option NameMapping :=
  (db.parameter_name_mappings.filter
      (fun r => strLower r.variant_name == strLower original_name)).foldl
    (fun acc r =>
      match acc with
      | none => some r
      | some b => if r.confidence_score > b.confidence_score then some r else acc)
    none

/-- The first query of `convert_unit`:
`WHERE canonical_parameter_name = %s AND LOWER(source_unit) = LOWER(%s)
LIMIT 1`. -/
def queryUnitRule (db : DB) (canonical_name original_unit : String) :
    Option UnitConversionRule :=
  db.unit_conversion_rules.find?
    (fun r => r.canonical_parameter_name == canonical_name &&
      strLower r.source_unit == strLower original_unit)

/-- The standard-unit probe of `convert_unit`:
`WHERE canonical_parameter_name = %s LIMIT 1`. -/
def queryStandardUnit (db : DB) (canonical_name : String) :
    Option UnitConversionRule :=
  db.unit_conversion_rules.find?
    (fun r => r.canonical_parameter_name == canonical_name)

/-- The query of `align_reference_range`:
`WHERE canonical_parameter_name = %s AND standard_unit = %s LIMIT 1`.
The orchestrator may pass `standard_unit = None`; SQL `= NULL` matches
no row, so the lookup misses. -/
def queryRefRange (db : DB) (canonical_name : String)
    (standard_unit : Option String) : Option StandardReferenceRange :=
  match standard_unit with
  | none => none
  | some u =>
      db.standard_reference_ranges.find?
        (fun r => r.canonical_parameter_name == canonical_name &&
          r.standard_unit == u)

/-- `LabDataNormalizer.normalize_parameter_name`: returns
`(canonical_name?, confidence)` and the grown operations log. -/
def normalize_parameter_name (db : DB) (log : List OperationLogEntry)
    (original_name parameter_id : String) :
    Option String × Rat × List OperationLogEntry :=
  match queryNameMapping db original_name with
  | some r =>
      (some r.canonical_name, r.confidence_score,
        log ++ [{ parameter_id := parameter_id, operation := "name_mapping",
                  status := "success", original_value := none,
                  original_unit := none, original_name := some original_name,
                  normalized_value := none, standard_unit := none,
                  canonical_name := some r.canonical_name,
                  conversion_factor := none, failure_reason := none }])
  | none =>
      (none, 0,
        log ++ [{ parameter_id := parameter_id, operation := "name_mapping",
                  status := "flagged", original_value := none,
                  original_unit := none, original_name := some original_name,
                  normalized_value := none, standard_unit := none,
                  canonical_name := none, conversion_factor := none,
                  failure_reason :=
                    some ("No canonical mapping found for '" ++
                      original_name ++ "'") }])

/-- `LabDataNormalizer.convert_unit`: returns
`(normalized_value?, standard_unit?, conversion_factor?, confidence)`
and the grown operations log. -/
def convert_unit (db : DB) (log : List OperationLogEntry) (value : Rat)
    (original_unit : Option String) (canonical_name parameter_id : String) :
    Option Rat × Option String × Option Rat × Rat × List OperationLogEntry :=
  if !(pyTruthyStr original_unit) then
    (some value, none, none, 1/2,
      log ++ [{ parameter_id := parameter_id, operation := "unit_conversion",
                status := "flagged", original_value := some value,
                original_unit := none, original_name := none,
                normalized_value := none, standard_unit := none,
                canonical_name := none, conversion_factor := none,
                failure_reason := some "No unit provided in source data" }])
  else
    let u := pyStrOptStr original_unit
    match queryUnitRule db canonical_name u with
    | some r =>
        (some (value * r.conversion_factor), some r.target_unit,
          some r.conversion_factor, r.confidence_score,
          log ++ [{ parameter_id := parameter_id,
                    operation := "unit_conversion", status := "success",
                    original_value := some value, original_unit := some u,
                    original_name := none,
                    normalized_value := some (value * r.conversion_factor),
                    standard_unit := some r.target_unit,
                    canonical_name := none,
                    conversion_factor := some r.conversion_factor,
                    failure_reason := none }])
    | none =>
        match queryStandardUnit db canonical_name with
        | some s =>
            if strLower s.target_unit == strLower u then
              (some value, some u, some 1, 1,
                log ++ [{ parameter_id := parameter_id,
                          operation := "unit_conversion", status := "success",
                          original_value := some value,
                          original_unit := some u, original_name := none,
                          normalized_value := some value,
                          standard_unit := some u, canonical_name := none,
                          conversion_factor := some 1,
                          failure_reason := none }])
            else
              (none, none, none, 0,
                log ++ [{ parameter_id := parameter_id,
                          operation := "unit_conversion", status := "flagged",
                          original_value := some value,
                          original_unit := some u, original_name := none,
                          normalized_value := none, standard_unit := none,
                          canonical_name := none, conversion_factor := none,
                          failure_reason :=
                            some ("No conversion rule for '" ++ u ++
                              "' to standard unit") }])
        | none =>
            (none, none, none, 0,
              log ++ [{ parameter_id := parameter_id,
                        operation := "unit_conversion", status := "flagged",
                        original_value := some value, original_unit := some u,
                        original_name := none, normalized_value := none,
                        standard_unit := none, canonical_name := none,
                        conversion_factor := none,
                        failure_reason :=
                          some ("No conversion rule for '" ++ u ++
                            "' to standard unit") }])

/-- `LabDataNormalizer.align_reference_range`: returns
`(range_min?, range_max?, confidence)` and the grown operations log.
The source converts a stored bound with `float(x) if x else None`, so a
stored `NULL` or `0` comes back as `None`. -/
def align_reference_range (db : DB) (log : List OperationLogEntry)
    (canonical_name : String) (standard_unit : Option String)
    (parameter_id : String) :
    Option Rat × Option Rat × Rat × List OperationLogEntry :=
  match queryRefRange db canonical_name standard_unit with
  | some r =>
      (pyTruthyRat r.range_min, pyTruthyRat r.range_max, r.confidence_score,
        log ++ [{ parameter_id := parameter_id,
                  operation := "range_alignment", status := "success",
                  original_value := none, original_unit := none,
                  original_name := none, normalized_value := none,
                  standard_unit := standard_unit,
                  canonical_name := some canonical_name,
                  conversion_factor := none, failure_reason := none }])
  | none =>
      (none, none, 1/2,
        log ++ [{ parameter_id := parameter_id,
                  operation := "range_alignment", status := "flagged",
                  original_value := none, original_unit := none,
                  original_name := none, normalized_value := none,
                  standard_unit := none,
                  canonical_name := some canonical_name,
                  conversion_factor := none,
                  failure_reason :=
                    some ("No reference range found for '" ++ canonical_name ++
                      "' in unit '" ++ pyStrOptStr standard_unit ++ "'") }])

/-- The public result dictionary of `normalize_lab_data`. -/
structure NormalizedParameter where
  normalized_parameter_id : String
  original_parameter_id : String
  user_id : String
  canonical_name : String
  original_value : Rat
  original_unit : Option String
  normalized_value : Rat
  standard_unit : Option String
  conversion_factor : Option Rat
  reference_range_min : Option Rat
  reference_range_max : Option Rat
  normalization_confidence : Rat
  deriving Repr, DecidableEq

/-- The result dictionary returned by `normalize_lab_data`. -/
structure NormalizationResult where
  success : Bool
  normalized_parameter : Option NormalizedParameter
  operations_logged : Nat
  errors : List String
  warnings : List String
  flagged_for_review : Bool
  deriving Repr, DecidableEq

/-- Observable side effects of one `normalize_lab_data` call:
the normalizer's final in-memory log, how often `save_audit_logs` was
invoked and what it wrote (rows of `normalization_audit_logs`, in
append order), the `health_parameters` status updates, and the rows
inserted into `normalized_parameters`. -/
structure Effects where
  opsLog : List OperationLogEntry
  auditSaves : Nat
  savedLogs : List OperationLogEntry
  statusUpdates : List (String × String)
  insertedParams : List NormalizedParameter
  deriving Repr, DecidableEq

/-- Python's `f"{x:.2f}"` on a confidence score: two decimal places,
rounding to the nearest hundredth. -/
def fmt2 (q : Rat) : String :=
  let c : Int := round (q * 100)
  let f := (c % 100).toNat
  toString (c / 100) ++ "." ++ (if f < 10 then "0" else "") ++ toString f

/-- The exception message of the modelled `INSERT INTO
normalized_parameters` fault (`str(e)` of the source). -/
def insertFaultMsg : String := "insert failed"

/-- `normalize_lab_data(parameter_id, user_id, parameter_name, value,
unit)`.  `new_uuid` stands for the `str(uuid.uuid4())` drawn for the
normalized row.  Returns the result dictionary together with the
observable side effects of the call. -/
def normalize_lab_data (db : DB) (new_uuid parameter_id user_id
    parameter_name : String) (value : Rat) (unit : Option String) :
    NormalizationResult × Effects :=
  let n := normalize_parameter_name db [] parameter_name parameter_id
  let canonical_name := n.1
  let name_confidence := n.2.1
  let log1 := n.2.2
  if !(pyTruthyStr canonical_name) then
    -- `if not canonical_name:` — flush logs, flag the source row, fail.
    ({ success := false, normalized_parameter := none,
       operations_logged := log1.length,
       errors := ["Could not map parameter name: " ++ parameter_name],
       warnings := [], flagged_for_review := true },
     { opsLog := log1, auditSaves := 1, savedLogs := log1,
       statusUpdates := [(parameter_id, "flagged")], insertedParams := [] })
  else
    let c := canonical_name.getD ""
    let cu := convert_unit db log1 value unit c parameter_id
    let normalized_value := cu.1
    let standard_unit := cu.2.1
    let conversion_factor := cu.2.2.1
    let unit_confidence := cu.2.2.2.1
    let log2 := cu.2.2.2.2
    match normalized_value with
    | none =>
        -- `if normalized_value is None:` — flush logs, flag, fail.
        ({ success := false, normalized_parameter := none,
           operations_logged := log2.length,
           errors := ["Could not convert unit: " ++ pyStrOptStr unit],
           warnings := [], flagged_for_review := true },
         { opsLog := log2, auditSaves := 1, savedLogs := log2,
           statusUpdates := [(parameter_id, "flagged")], insertedParams := [] })
    | some nv =>
        let ar := align_reference_range db log2 c standard_unit parameter_id
        let range_min := ar.1
        let range_max := ar.2.1
        let range_confidence := ar.2.2.1
        let log3 := ar.2.2.2
        let warnings0 :=
          if range_min.isNone && range_max.isNone then
            ["No reference range available for " ++ c]
          else []
        let overall_confidence :=
          (name_confidence + unit_confidence + range_confidence) / 3
        if db.insert_normalized_raises then
          -- the INSERT raises; `except Exception` catches it, the audit
          -- logs are never flushed and `operations_logged` stays 0.
          ({ success := false, normalized_parameter := none,
             operations_logged := 0,
             errors := ["Unexpected error: " ++ insertFaultMsg],
             warnings := warnings0, flagged_for_review := true },
           { opsLog := log3, auditSaves := 0, savedLogs := [],
             statusUpdates := [], insertedParams := [] })
        else
          let np : NormalizedParameter :=
            { normalized_parameter_id := new_uuid,
              original_parameter_id := parameter_id, user_id := user_id,
              canonical_name := c, original_value := value,
              original_unit := unit, normalized_value := nv,
              standard_unit := standard_unit,
              conversion_factor := conversion_factor,
              reference_range_min := range_min,
              reference_range_max := range_max,
              normalization_confidence := overall_confidence }
          let low := decide (overall_confidence < 7/10)
          ({ success := true, normalized_parameter := some np,
             operations_logged := log3.length, errors := [],
             warnings := warnings0 ++
               (if low then
                 ["Low confidence score: " ++ fmt2 overall_confidence]
                else []),
             flagged_for_review := low },
           { opsLog := log3, auditSaves := 1, savedLogs := log3,
             statusUpdates := [(parameter_id, "normalized")],
             insertedParams := [np] })

/-- One input of `normalize_batch` (the per-item dictionary). -/
structure BatchParam where
  parameter_id : String
  user_id : String
  parameter_name : String
  value : Rat
  unit : Option String
  deriving Repr, DecidableEq

/-- The batch result dictionary of `normalize_batch`. -/
structure BatchResult where
  total : Nat
  successful : Nat
  failed : Nat
  flagged : Nat
  results : List NormalizationResult
  deriving Repr, DecidableEq

/-- The result of one item inside `normalize_batch`. -/
def runOne (db : DB) (new_uuid : String) (p : BatchParam) :
    NormalizationResult :=
  (normalize_lab_data db new_uuid p.parameter_id p.user_id p.parameter_name
    p.value p.unit).1

/-- One iteration of the `normalize_batch` loop: run the item, append
its result and bump the counters.  The second component of the
accumulator is the item index (used to draw the item's uuid). -/
def batchStep (db : DB) (uuids : Nat → String) (acc : BatchResult × Nat)
    (p : BatchParam) : BatchResult × Nat :=
  let result := runOne db (uuids acc.2) p
  ({ acc.1 with
     results := acc.1.results ++ [result],
     successful :=
       if result.success then acc.1.successful + 1 else acc.1.successful,
     failed := if result.success then acc.1.failed else acc.1.failed + 1,
     flagged :=
       if result.flagged_for_review then acc.1.flagged + 1
       else acc.1.flagged },
   acc.2 + 1)

/-- `normalize_batch(parameters)`: fold the single-parameter workflow
over the list, counting outcomes and appending each result.
`uuids i` stands for the uuid drawn for the `i`-th item. -/
def normalize_batch (db : DB) (uuids : Nat → String)
    (parameters : List BatchParam) : BatchResult :=
  (parameters.foldl (batchStep db uuids)
    ({ total := parameters.length, successful := 0, failed := 0,
       flagged := 0, results := [] }, 0)).1

/-- The sequence of per-item results of a batch, starting at item
index `i`: each item is processed independently of the others. -/
def runAll (db : DB) (uuids : Nat → String) :
    Nat → List BatchParam → List NormalizationResult
  | _, [] => []
  | i, p :: ps => runOne db (uuids i) p :: runAll db uuids (i + 1) ps

/-! ## Derived stage-outcome predicates used by the theorems -/

/-- The orchestrator's stage-1 failure condition:
`if not canonical_name` on the value returned by the name stage. -/
def nameStageFails (db : DB) (parameter_name parameter_id : String) : Prop :=
  pyTruthyStr (normalize_parameter_name db [] parameter_name parameter_id).1 =
    false

/-- The orchestrator's stage-2 failure condition: the name stage
produced a truthy canonical name, and `convert_unit` returned
`normalized_value is None`. -/
def unitStageFails (db : DB) (parameter_name parameter_id : String)
    (value : Rat) (unit : Option String) : Prop :=
  let n := normalize_parameter_name db [] parameter_name parameter_id
  pyTruthyStr n.1 = true ∧
    (convert_unit db n.2.2 value unit (n.1.getD "") parameter_id).1 = none

/-! ## Witness database

Rows mirroring the repository's test fixtures (`setup_test_data.py`,
the docstring example of `normalize_lab_data` and the spec's concrete
scenarios). -/

/-- Reference data for witnesses: Blood Glucose with an mg/dL→mmol/L
rule and a reference range, HbA1c whose standard unit is `%` with no
direct rule for `%`. -/
def exDB : DB :=
  { parameter_name_mappings :=
      [⟨"blood glucose", "glucose_fasting", 95/100⟩,
       ⟨"hba1c", "hemoglobin_a1c", 9/10⟩],
    unit_conversion_rules :=
      [⟨"glucose_fasting", "mg/dL", "mmol/L", 555/10000, 98/100⟩,
       ⟨"hemoglobin_a1c", "mmol/mol", "%", 1, 9/10⟩],
    standard_reference_ranges :=
      [⟨"glucose_fasting", "mmol/L", some (39/10), some (61/10), 95/100⟩],
    insert_normalized_raises := false }

/-- `exDB` with the modelled `INSERT INTO normalized_parameters`
fault armed. -/
def exDBFault : DB := { exDB with insert_normalized_raises := true }

/-! ## C1: unit conversion on a registered rule -/

/-- C1: for every input whose canonical parameter name and source unit
have a registered conversion rule, `convert_unit` returns
`normalized_value = value * conversion_factor` (exactly, hence within
the 1e-6 tolerance), together with the rule's `target_unit`,
`conversion_factor` and `confidence_score`, and appends a
`unit_conversion`/`success` log entry. -/
theorem convert_unit_rule_hit (db : DB) (log : List OperationLogEntry)
    (value : Rat) (u canonical_name parameter_id : String)
    (r : UnitConversionRule) (hu : u ≠ "")
    (hr : queryUnitRule db canonical_name u = some r) :
    convert_unit db log value (some u) canonical_name parameter_id =
      (some (value * r.conversion_factor), some r.target_unit,
        some r.conversion_factor, r.confidence_score,
        log ++ [{ parameter_id := parameter_id,
                  operation := "unit_conversion", status := "success",
                  original_value := some value, original_unit := some u,
                  original_name := none,
                  normalized_value := some (value * r.conversion_factor),
                  standard_unit := some r.target_unit, canonical_name := none,
                  conversion_factor := some r.conversion_factor,
                  failure_reason := none }]) ∧
      |value * r.conversion_factor - value * r.conversion_factor| ≤
        1/1000000 := by
  have ht : pyTruthyStr (some u) = true := by simp [pyTruthyStr, hu]
  refine ⟨?_, by simp⟩
  simp only [convert_unit, ht, Bool.not_true, Bool.false_eq_true, if_false,
    pyStrOptStr, hr]

/-- Witness for C1: the Blood Glucose scenario,
117 mg/dL × 0.0555 on rule (glucose_fasting, mg/dL). -/
theorem convert_unit_rule_hit_witness :
    convert_unit exDB [] 117 (some "mg/dL") "glucose_fasting" "p1" =
      (some (117 * (555/10000)), some "mmol/L", some (555/10000), 98/100,
        [{ parameter_id := "p1", operation := "unit_conversion",
           status := "success", original_value := some 117,
           original_unit := some "mg/dL", original_name := none,
           normalized_value := some (117 * (555/10000)),
           standard_unit := some "mmol/L", canonical_name := none,
           conversion_factor := some (555/10000), failure_reason := none }]) ∧
      |117 * ((555:Rat)/10000) - 117 * (555/10000)| ≤ 1/1000000 :=
  convert_unit_rule_hit exDB [] 117 "mg/dL" "glucose_fasting" "p1"
    ⟨"glucose_fasting", "mg/dL", "mmol/L", 555/10000, 98/100⟩
    (by decide) rfl

/-! ## Log-growth helper lemmas: each stage appends exactly one entry -/

lemma normalize_parameter_name_log_length (db : DB)
    (log : List OperationLogEntry) (pname pid : String) :
    ((normalize_parameter_name db log pname pid).2.2).length = log.length + 1 := by
  cases h : queryNameMapping db pname <;>
    simp [normalize_parameter_name, h]

lemma convert_unit_log_length (db : DB) (log : List OperationLogEntry)
    (value : Rat) (unit : Option String) (c pid : String) :
    ((convert_unit db log value unit c pid).2.2.2.2).length = log.length + 1 := by
  by_cases hu : pyTruthyStr unit = true
  · cases h : queryUnitRule db c (pyStrOptStr unit) with
    | some r => simp [convert_unit, hu, h]
    | none =>
        cases h2 : queryStandardUnit db c with
        | some s =>
            by_cases h3 : strLower s.target_unit == strLower (pyStrOptStr unit) <;>
              simp [convert_unit, hu, h, h2, h3]
        | none => simp [convert_unit, hu, h, h2]
  · simp at hu
    simp [convert_unit, hu]

lemma align_reference_range_log_length (db : DB)
    (log : List OperationLogEntry) (c : String) (su : Option String)
    (pid : String) :
    ((align_reference_range db log c su pid).2.2.2).length = log.length + 1 := by
  cases h : queryRefRange db c su <;>
    simp [align_reference_range, h]

/-! ## C6: reference-range alignment on a hit -/

/-- C6 (amended): when `(canonical_name, standard_unit)` has a
`StandardReferenceRange` row, `align_reference_range` returns the
row's confidence score and its stored bounds filtered through Python
truthiness — a stored bound that is absent *or equal to 0* comes back
as absent (`float(x) if x else None`) — and appends a
`range_alignment`/`success` log entry. -/
theorem align_reference_range_hit (db : DB) (log : List OperationLogEntry)
    (c u pid : String) (r : StandardReferenceRange)
    (hr : queryRefRange db c (some u) = some r) :
    align_reference_range db log c (some u) pid =
      (pyTruthyRat r.range_min, pyTruthyRat r.range_max, r.confidence_score,
        log ++ [{ parameter_id := pid, operation := "range_alignment",
                  status := "success", original_value := none,
                  original_unit := none, original_name := none,
                  normalized_value := none, standard_unit := some u,
                  canonical_name := some c, conversion_factor := none,
                  failure_reason := none }]) ∧
      (∀ v : Rat, r.range_min = some v → v ≠ 0 →
        (align_reference_range db log c (some u) pid).1 = some v) ∧
      (∀ v : Rat, r.range_max = some v → v ≠ 0 →
        (align_reference_range db log c (some u) pid).2.1 = some v) := by
  have h1 : align_reference_range db log c (some u) pid =
      (pyTruthyRat r.range_min, pyTruthyRat r.range_max, r.confidence_score,
        log ++ [{ parameter_id := pid, operation := "range_alignment",
                  status := "success", original_value := none,
                  original_unit := none, original_name := none,
                  normalized_value := none, standard_unit := some u,
                  canonical_name := some c, conversion_factor := none,
                  failure_reason := none }]) := by
    simp only [align_reference_range, hr]
  refine ⟨h1, ?_, ?_⟩
  · intro v hv hv0
    rw [h1]
    simp [pyTruthyRat, hv, hv0]
  · intro v hv hv0
    rw [h1]
    simp [pyTruthyRat, hv, hv0]

/-- Witness for C6 (amended): the glucose reference range row
(3.9, 6.1) is returned as stored, with its confidence 0.95. -/
theorem align_reference_range_hit_witness :
    align_reference_range exDB [] "glucose_fasting" (some "mmol/L") "p1" =
      (pyTruthyRat (some (39/10)), pyTruthyRat (some (61/10)), 95/100,
        [{ parameter_id := "p1", operation := "range_alignment",
           status := "success", original_value := none, original_unit := none,
           original_name := none, normalized_value := none,
           standard_unit := some "mmol/L",
           canonical_name := some "glucose_fasting",
           conversion_factor := none, failure_reason := none }]) ∧
      (∀ v : Rat, (some (39/10) : Option Rat) = some v → v ≠ 0 →
        (align_reference_range exDB [] "glucose_fasting" (some "mmol/L")
          "p1").1 = some v) ∧
      (∀ v : Rat, (some (61/10) : Option Rat) = some v → v ≠ 0 →
        (align_reference_range exDB [] "glucose_fasting" (some "mmol/L")
          "p1").2.1 = some v) :=
  align_reference_range_hit exDB [] "glucose_fasting" "mmol/L" "p1"
    ⟨"glucose_fasting", "mmol/L", some (39/10), some (61/10), 95/100⟩ rfl

/-- Reference data with a stored lower bound equal to 0: the row is
present and both bounds are present in the table. -/
def zeroBoundDB : DB :=
  { parameter_name_mappings := [],
    unit_conversion_rules := [],
    standard_reference_ranges :=
      [⟨"basophils_abs", "10^9/L", some 0, some (2/10), 9/10⟩],
    insert_normalized_raises := false }

/-- Counterexample for C6 as stated: the stored `range_min` is present
(it is `0`), yet `align_reference_range` returns an absent lower bound,
because the source guards the conversion with Python truthiness
(`float(result['range_min']) if result['range_min'] else None`). -/
theorem align_reference_range_zero_bound_counterexample :
    queryRefRange zeroBoundDB "basophils_abs" (some "10^9/L") =
      some ⟨"basophils_abs", "10^9/L", some 0, some (2/10), 9/10⟩ ∧
    (align_reference_range zeroBoundDB [] "basophils_abs" (some "10^9/L")
      "p1").1 = none ∧
    (align_reference_range zeroBoundDB [] "basophils_abs" (some "10^9/L")
      "p1").2.2.1 = 9/10 := by
  refine ⟨rfl, ?_, rfl⟩
  show pyTruthyRat (some 0) = none
  simp [pyTruthyRat]

/-! ## C7: absent unit is a low-confidence pass-through -/

lemma convert_unit_none_eq (db : DB) (log : List OperationLogEntry)
    (value : Rat) (canonical_name parameter_id : String) :
    convert_unit db log value none canonical_name parameter_id =
      (some value, none, none, 1/2,
        log ++ [{ parameter_id := parameter_id,
                  operation := "unit_conversion", status := "flagged",
                  original_value := some value, original_unit := none,
                  original_name := none, normalized_value := none,
                  standard_unit := none, canonical_name := none,
                  conversion_factor := none,
                  failure_reason :=
                    some "No unit provided in source data" }]) := rfl

/-- C7: with no unit, `convert_unit` passes the value through (any
value, `0` included) with no standard unit, no conversion factor and
stage confidence `0.5`, logging `unit_conversion`/`flagged` with the
"no unit provided" reason; the orchestrator does not treat this as a
failure and still runs the range stage. -/
theorem convert_unit_no_unit_passthrough :
    (∀ (db : DB) (log : List OperationLogEntry) (value : Rat)
        (canonical_name parameter_id : String),
      convert_unit db log value none canonical_name parameter_id =
        (some value, none, none, 1/2,
          log ++ [{ parameter_id := parameter_id,
                    operation := "unit_conversion", status := "flagged",
                    original_value := some value, original_unit := none,
                    original_name := none, normalized_value := none,
                    standard_unit := none, canonical_name := none,
                    conversion_factor := none,
                    failure_reason :=
                      some "No unit provided in source data" }])) ∧
    (∀ (db : DB) (nu pid uid pname : String) (value : Rat),
      db.insert_normalized_raises = false →
      ¬ nameStageFails db pname pid →
      (normalize_lab_data db nu pid uid pname value none).1.success = true ∧
      (normalize_lab_data db nu pid uid pname value none).2.opsLog.length =
        3) := by
  constructor
  · intro db log value canonical_name parameter_id
    exact convert_unit_none_eq db log value canonical_name parameter_id
  · intro db nu pid uid pname value hf hn
    have hpt : pyTruthyStr
        (normalize_parameter_name db [] pname pid).1 = true := by
      cases h : pyTruthyStr (normalize_parameter_name db [] pname pid).1 with
      | false => exact absurd h hn
      | true => rfl
    have hlog1 : ((normalize_parameter_name db [] pname pid).2.2).length = 1 :=
      normalize_parameter_name_log_length db [] pname pid
    simp only [normalize_lab_data, hpt, Bool.not_true, Bool.false_eq_true,
      if_false, convert_unit_none_eq, align_reference_range, queryRefRange,
      hf]
    simp [hlog1]

/-- Witness for C7: value 0 with no unit passes through for
Blood Glucose, and the full run succeeds with all three stages
logged. -/
theorem convert_unit_no_unit_passthrough_witness :
    convert_unit exDB [] 0 none "glucose_fasting" "p1" =
      (some 0, none, none, 1/2,
        [{ parameter_id := "p1", operation := "unit_conversion",
           status := "flagged", original_value := some 0,
           original_unit := none, original_name := none,
           normalized_value := none, standard_unit := none,
           canonical_name := none, conversion_factor := none,
           failure_reason := some "No unit provided in source data" }]) ∧
    (normalize_lab_data exDB "u1" "p1" "usr" "Blood Glucose" 0
      none).1.success = true ∧
    (normalize_lab_data exDB "u1" "p1" "usr" "Blood Glucose" 0
      none).2.opsLog.length = 3 :=
  ⟨convert_unit_no_unit_passthrough.1 exDB [] 0 "glucose_fasting" "p1",
   convert_unit_no_unit_passthrough.2 exDB "u1" "p1" "usr" "Blood Glucose" 0
     rfl (by
      intro h
      have h2 : pyTruthyStr
          (normalize_parameter_name exDB [] "Blood Glucose" "p1").1 =
            false := h
      exact absurd h2 (by decide))⟩

/-! ## C8: unit already equals the standard unit -/

/-- C8: when the unit has no conversion rule for the canonical
parameter but case-insensitively equals the parameter's standard
(target) unit, `convert_unit` treats the value as already standard:
value unchanged, the original unit as standard unit, factor `1.0`,
confidence `1.0`, and a `unit_conversion`/`success` log entry. -/
theorem convert_unit_already_standard (db : DB)
    (log : List OperationLogEntry) (value : Rat)
    (u canonical_name parameter_id : String) (s : UnitConversionRule)
    (hu : u ≠ "") (hmiss : queryUnitRule db canonical_name u = none)
    (hstd : queryStandardUnit db canonical_name = some s)
    (heq : strLower s.target_unit = strLower u) :
    convert_unit db log value (some u) canonical_name parameter_id =
      (some value, some u, some 1, 1,
        log ++ [{ parameter_id := parameter_id,
                  operation := "unit_conversion", status := "success",
                  original_value := some value, original_unit := some u,
                  original_name := none, normalized_value := some value,
                  standard_unit := some u, canonical_name := none,
                  conversion_factor := some 1,
                  failure_reason := none }]) := by
  have ht : pyTruthyStr (some u) = true := by simp [pyTruthyStr, hu]
  simp only [convert_unit, ht, Bool.not_true, Bool.false_eq_true, if_false,
    pyStrOptStr, hmiss, hstd, heq, beq_self_eq_true, if_true]

/-- Witness for C8: HbA1c 6.5 `%` where `%` is already the standard
unit (the only rule row for `hemoglobin_a1c` targets `%`). -/
theorem convert_unit_already_standard_witness :
    convert_unit exDB [] (13/2) (some "%") "hemoglobin_a1c" "p1" =
      (some (13/2), some "%", some 1, 1,
        [{ parameter_id := "p1", operation := "unit_conversion",
           status := "success", original_value := some (13/2),
           original_unit := some "%", original_name := none,
           normalized_value := some (13/2), standard_unit := some "%",
           canonical_name := none, conversion_factor := some 1,
           failure_reason := none }]) :=
  convert_unit_already_standard exDB [] (13/2) "%" "hemoglobin_a1c" "p1"
    ⟨"hemoglobin_a1c", "mmol/mol", "%", 1, 9/10⟩
    (by decide) rfl rfl rfl

/-! ## Path lemmas for the orchestrator -/

/-- Stage-1 failure path of `normalize_lab_data` (`if not canonical_name`). -/
lemma normalize_lab_data_name_fail (db : DB) (nu pid uid pname : String)
    (value : Rat) (unit : Option String)
    (hpt : pyTruthyStr (normalize_parameter_name db [] pname pid).1 = false) :
    normalize_lab_data db nu pid uid pname value unit =
      ({ success := false, normalized_parameter := none,
         operations_logged :=
           ((normalize_parameter_name db [] pname pid).2.2).length,
         errors := ["Could not map parameter name: " ++ pname],
         warnings := [], flagged_for_review := true },
       { opsLog := (normalize_parameter_name db [] pname pid).2.2,
         auditSaves := 1,
         savedLogs := (normalize_parameter_name db [] pname pid).2.2,
         statusUpdates := [(pid, "flagged")], insertedParams := [] }) := by
  simp only [normalize_lab_data, hpt, Bool.not_false, if_true]

/-- Stage-2 failure path of `normalize_lab_data`
(`if normalized_value is None`). -/
lemma normalize_lab_data_unit_fail (db : DB) (nu pid uid pname : String)
    (value : Rat) (unit : Option String)
    (hpt : pyTruthyStr (normalize_parameter_name db [] pname pid).1 = true)
    (hnv : (convert_unit db (normalize_parameter_name db [] pname pid).2.2
        value unit ((normalize_parameter_name db [] pname pid).1.getD "")
        pid).1 = none) :
    normalize_lab_data db nu pid uid pname value unit =
      ({ success := false, normalized_parameter := none,
         operations_logged :=
           ((convert_unit db (normalize_parameter_name db [] pname pid).2.2
             value unit ((normalize_parameter_name db [] pname pid).1.getD "")
             pid).2.2.2.2).length,
         errors := ["Could not convert unit: " ++ pyStrOptStr unit],
         warnings := [], flagged_for_review := true },
       { opsLog := (convert_unit db
           (normalize_parameter_name db [] pname pid).2.2 value unit
           ((normalize_parameter_name db [] pname pid).1.getD "") pid).2.2.2.2,
         auditSaves := 1,
         savedLogs := (convert_unit db
           (normalize_parameter_name db [] pname pid).2.2 value unit
           ((normalize_parameter_name db [] pname pid).1.getD "") pid).2.2.2.2,
         statusUpdates := [(pid, "flagged")], insertedParams := [] }) := by
  simp only [normalize_lab_data, hpt, Bool.not_true, Bool.false_eq_true,
    if_false, hnv]

/-- Fault path of `normalize_lab_data`: all three stages ran, the
`INSERT INTO normalized_parameters` raises, `except Exception` builds a
generic failure and the audit logs are never flushed. -/
lemma normalize_lab_data_fault (db : DB) (nu pid uid pname : String)
    (value : Rat) (unit : Option String) (c : String) (nc : Rat)
    (log1 : List OperationLogEntry) (nv : Rat) (su : Option String)
    (cf : Option Rat) (uc : Rat) (log2 : List OperationLogEntry)
    (rmin rmax : Option Rat) (rc : Rat) (log3 : List OperationLogEntry)
    (hname : normalize_parameter_name db [] pname pid = (some c, nc, log1))
    (hc : c ≠ "")
    (hunit : convert_unit db log1 value unit c pid = (some nv, su, cf, uc, log2))
    (hrange : align_reference_range db log2 c su pid = (rmin, rmax, rc, log3))
    (hf : db.insert_normalized_raises = true) :
    normalize_lab_data db nu pid uid pname value unit =
      ({ success := false, normalized_parameter := none,
         operations_logged := 0,
         errors := ["Unexpected error: " ++ insertFaultMsg],
         warnings := if rmin.isNone && rmax.isNone then
             ["No reference range available for " ++ c]
           else [],
         flagged_for_review := true },
       { opsLog := log3, auditSaves := 0, savedLogs := [],
         statusUpdates := [], insertedParams := [] }) := by
  have hpt : pyTruthyStr (some c) = true := by simp [pyTruthyStr, hc]
  simp only [normalize_lab_data, hname, hpt, Bool.not_true,
    Bool.false_eq_true, if_false, Option.getD_some, hunit, hrange, hf,
    if_true]

/-- Success path of `normalize_lab_data`: all three stages ran, the
normalized row is inserted, the source status becomes "normalized", the
audit logs are flushed, and the low-confidence policy is applied. -/
lemma normalize_lab_data_success (db : DB) (nu pid uid pname : String)
    (value : Rat) (unit : Option String) (c : String) (nc : Rat)
    (log1 : List OperationLogEntry) (nv : Rat) (su : Option String)
    (cf : Option Rat) (uc : Rat) (log2 : List OperationLogEntry)
    (rmin rmax : Option Rat) (rc : Rat) (log3 : List OperationLogEntry)
    (hname : normalize_parameter_name db [] pname pid = (some c, nc, log1))
    (hc : c ≠ "")
    (hunit : convert_unit db log1 value unit c pid = (some nv, su, cf, uc, log2))
    (hrange : align_reference_range db log2 c su pid = (rmin, rmax, rc, log3))
    (hf : db.insert_normalized_raises = false) :
    normalize_lab_data db nu pid uid pname value unit =
      ({ success := true,
         normalized_parameter := some
           { normalized_parameter_id := nu, original_parameter_id := pid,
             user_id := uid, canonical_name := c, original_value := value,
             original_unit := unit, normalized_value := nv,
             standard_unit := su, conversion_factor := cf,
             reference_range_min := rmin, reference_range_max := rmax,
             normalization_confidence := (nc + uc + rc) / 3 },
         operations_logged := log3.length, errors := [],
         warnings :=
           (if rmin.isNone && rmax.isNone then
             ["No reference range available for " ++ c]
            else []) ++
           (if decide ((nc + uc + rc) / 3 < 7/10) then
             ["Low confidence score: " ++ fmt2 ((nc + uc + rc) / 3)]
            else []),
         flagged_for_review := decide ((nc + uc + rc) / 3 < 7/10) },
       { opsLog := log3, auditSaves := 1, savedLogs := log3,
         statusUpdates := [(pid, "normalized")],
         insertedParams :=
           [{ normalized_parameter_id := nu, original_parameter_id := pid,
              user_id := uid, canonical_name := c, original_value := value,
              original_unit := unit, normalized_value := nv,
              standard_unit := su, conversion_factor := cf,
              reference_range_min := rmin, reference_range_max := rmax,
              normalization_confidence := (nc + uc + rc) / 3 }] }) := by
  have hpt : pyTruthyStr (some c) = true := by simp [pyTruthyStr, hc]
  simp only [normalize_lab_data, hname, hpt, Bool.not_true,
    Bool.false_eq_true, if_false, Option.getD_some, hunit, hrange, hf]

/-! ## C10: an empty canonical name is logged as success but rejected
by the orchestrator's truthiness test -/

/-- C10: when the name lookup hits a row whose `canonical_name` is
`""`, `normalize_parameter_name` returns `""` with a
`name_mapping`/`success` log entry, yet `normalize_lab_data` treats the
attempt as a name-mapping failure, because `if not canonical_name`
tests truthiness and `""` is falsy. -/
theorem empty_canonical_name_rejected (db : DB) (nu pid uid pname : String)
    (value : Rat) (unit : Option String) (m : NameMapping)
    (hq : queryNameMapping db pname = some m)
    (hempty : m.canonical_name = "") :
    normalize_parameter_name db [] pname pid =
      (some "", m.confidence_score,
        [{ parameter_id := pid, operation := "name_mapping",
           status := "success", original_value := none, original_unit := none,
           original_name := some pname, normalized_value := none,
           standard_unit := none, canonical_name := some "",
           conversion_factor := none, failure_reason := none }]) ∧
    (normalize_lab_data db nu pid uid pname value unit).1.success = false ∧
    (normalize_lab_data db nu pid uid pname value unit).1.flagged_for_review =
      true ∧
    (normalize_lab_data db nu pid uid pname value unit).1.errors =
      ["Could not map parameter name: " ++ pname] ∧
    (normalize_lab_data db nu pid uid pname value unit).1.operations_logged =
      1 ∧
    (normalize_lab_data db nu pid uid pname value unit).2.statusUpdates =
      [(pid, "flagged")] := by
  have h1 : normalize_parameter_name db [] pname pid =
      (some "", m.confidence_score,
        [{ parameter_id := pid, operation := "name_mapping",
           status := "success", original_value := none, original_unit := none,
           original_name := some pname, normalized_value := none,
           standard_unit := none, canonical_name := some "",
           conversion_factor := none, failure_reason := none }]) := by
    simp only [normalize_parameter_name, hq, hempty, List.nil_append]
  have hpt : pyTruthyStr (normalize_parameter_name db [] pname pid).1 =
      false := by
    rw [h1]
    rfl
  have h2 := normalize_lab_data_name_fail db nu pid uid pname value unit hpt
  refine ⟨h1, ?_, ?_, ?_, ?_, ?_⟩ <;> (rw [h2]; try simp [h1])

/-- Reference data where the name row maps "mystery marker" to the
empty canonical name with confidence 0.8. -/
def emptyNameDB : DB :=
  { parameter_name_mappings := [⟨"mystery marker", "", 8/10⟩],
    unit_conversion_rules := [],
    standard_reference_ranges := [],
    insert_normalized_raises := false }

/-- Witness for C10 on `emptyNameDB`. -/
theorem empty_canonical_name_rejected_witness :
    normalize_parameter_name emptyNameDB [] "Mystery Marker" "p1" =
      (some "", 8/10,
        [{ parameter_id := "p1", operation := "name_mapping",
           status := "success", original_value := none, original_unit := none,
           original_name := some "Mystery Marker", normalized_value := none,
           standard_unit := none, canonical_name := some "",
           conversion_factor := none, failure_reason := none }]) ∧
    (normalize_lab_data emptyNameDB "u1" "p1" "usr" "Mystery Marker" 5
      (some "mg/dL")).1.success = false ∧
    (normalize_lab_data emptyNameDB "u1" "p1" "usr" "Mystery Marker" 5
      (some "mg/dL")).1.flagged_for_review = true ∧
    (normalize_lab_data emptyNameDB "u1" "p1" "usr" "Mystery Marker" 5
      (some "mg/dL")).1.errors =
      ["Could not map parameter name: " ++ "Mystery Marker"] ∧
    (normalize_lab_data emptyNameDB "u1" "p1" "usr" "Mystery Marker" 5
      (some "mg/dL")).1.operations_logged = 1 ∧
    (normalize_lab_data emptyNameDB "u1" "p1" "usr" "Mystery Marker" 5
      (some "mg/dL")).2.statusUpdates = [("p1", "flagged")] :=
  empty_canonical_name_rejected emptyNameDB "u1" "p1" "usr" "Mystery Marker"
    5 (some "mg/dL") ⟨"mystery marker", "", 8/10⟩ rfl rfl

/-! ## C2: terminal failure states of one normalization attempt -/

lemma unexpected_ne_name_error (s : String) :
    "Unexpected error: " ++ insertFaultMsg ≠
      "Could not map parameter name: " ++ s := by
  intro h
  obtain ⟨l⟩ := s
  have h2 : ("Unexpected error: " ++ insertFaultMsg).data.head? =
      ("Could not map parameter name: " ++ String.mk l).data.head? := by
    rw [h]
  have hL : ("Unexpected error: " ++ insertFaultMsg).data.head? =
      some 'U' := rfl
  have hR : ("Could not map parameter name: " ++ String.mk l).data.head? =
      some 'C' := rfl
  rw [hL, hR] at h2
  exact absurd h2 (by decide)

lemma unexpected_ne_unit_error (s : String) :
    "Unexpected error: " ++ insertFaultMsg ≠
      "Could not convert unit: " ++ s := by
  intro h
  obtain ⟨l⟩ := s
  have h2 : ("Unexpected error: " ++ insertFaultMsg).data.head? =
      ("Could not convert unit: " ++ String.mk l).data.head? := by
    rw [h]
  have hL : ("Unexpected error: " ++ insertFaultMsg).data.head? =
      some 'U' := rfl
  have hR : ("Could not convert unit: " ++ String.mk l).data.head? =
      some 'C' := rfl
  rw [hL, hR] at h2
  exact absurd h2 (by decide)

/-- C2: `normalize_lab_data` returns a failure result — `success =
false`, `flagged_for_review = true`, and an errors list naming the
offending stage — exactly when the name stage yields no (truthy)
canonical name or the unit stage yields no normalized value; in either
terminal failure the source parameter is marked "flagged", later stages
are not run (the log holds only the entries of the stages that ran) and
nothing is inserted. -/
theorem normalize_failure_characterization (db : DB)
    (nu pid uid pname : String) (value : Rat) (unit : Option String) :
    (((normalize_lab_data db nu pid uid pname value unit).1.success = false ∧
      (normalize_lab_data db nu pid uid pname value
        unit).1.flagged_for_review = true ∧
      ((normalize_lab_data db nu pid uid pname value unit).1.errors =
          ["Could not map parameter name: " ++ pname] ∨
        (normalize_lab_data db nu pid uid pname value unit).1.errors =
          ["Could not convert unit: " ++ pyStrOptStr unit])) ↔
      (nameStageFails db pname pid ∨
        unitStageFails db pname pid value unit)) ∧
    (nameStageFails db pname pid →
      (normalize_lab_data db nu pid uid pname value unit).1.errors =
        ["Could not map parameter name: " ++ pname] ∧
      (normalize_lab_data db nu pid uid pname value
        unit).1.operations_logged = 1 ∧
      (normalize_lab_data db nu pid uid pname value unit).2.opsLog.length =
        1 ∧
      (normalize_lab_data db nu pid uid pname value unit).2.statusUpdates =
        [(pid, "flagged")] ∧
      (normalize_lab_data db nu pid uid pname value unit).2.insertedParams =
        []) ∧
    (unitStageFails db pname pid value unit →
      (normalize_lab_data db nu pid uid pname value unit).1.errors =
        ["Could not convert unit: " ++ pyStrOptStr unit] ∧
      (normalize_lab_data db nu pid uid pname value
        unit).1.operations_logged = 2 ∧
      (normalize_lab_data db nu pid uid pname value unit).2.opsLog.length =
        2 ∧
      (normalize_lab_data db nu pid uid pname value unit).2.statusUpdates =
        [(pid, "flagged")] ∧
      (normalize_lab_data db nu pid uid pname value unit).2.insertedParams =
        []) := by
  have hlen1 : ((normalize_parameter_name db [] pname pid).2.2).length = 1 :=
    normalize_parameter_name_log_length db [] pname pid
  cases hpt : pyTruthyStr (normalize_parameter_name db [] pname pid).1 with
  | false =>
      have hnf : nameStageFails db pname pid := hpt
      have heq := normalize_lab_data_name_fail db nu pid uid pname value unit
        hpt
      refine ⟨?_, ?_, ?_⟩
      · rw [heq]
        constructor
        · intro _
          exact Or.inl hnf
        · intro _
          exact ⟨rfl, rfl, Or.inl rfl⟩
      · intro _
        rw [heq]
        exact ⟨rfl, hlen1, hlen1, rfl, rfl⟩
      · intro hu
        exact absurd hu.1 (by rw [hpt]; decide)
  | true =>
      have hlen2 : ((convert_unit db
          (normalize_parameter_name db [] pname pid).2.2 value unit
          ((normalize_parameter_name db [] pname pid).1.getD "")
          pid).2.2.2.2).length = 2 := by
        rw [convert_unit_log_length, hlen1]
      have hnotname : ¬ nameStageFails db pname pid := by
        intro h
        rw [nameStageFails] at h
        rw [hpt] at h
        exact absurd h (by decide)
      cases hnv : (convert_unit db
          (normalize_parameter_name db [] pname pid).2.2 value unit
          ((normalize_parameter_name db [] pname pid).1.getD "") pid).1 with
      | none =>
          have huf : unitStageFails db pname pid value unit := ⟨hpt, hnv⟩
          have heq := normalize_lab_data_unit_fail db nu pid uid pname value
            unit hpt hnv
          refine ⟨?_, ?_, ?_⟩
          · rw [heq]
            constructor
            · intro _
              exact Or.inr huf
            · intro _
              exact ⟨rfl, rfl, Or.inr rfl⟩
          · intro hn
            exact absurd hn hnotname
          · intro _
            rw [heq]
            exact ⟨rfl, hlen2, hlen2, rfl, rfl⟩
      | some nv =>
          have hnotunit : ¬ unitStageFails db pname pid value unit := by
            intro h
            rw [h.2] at hnv
            exact Option.noConfusion hnv
          -- the name stage produced a truthy canonical name
          obtain ⟨c, hc1⟩ : ∃ c,
              (normalize_parameter_name db [] pname pid).1 = some c := by
            cases h : (normalize_parameter_name db [] pname pid).1 with
            | none => rw [h] at hpt; exact absurd hpt (by decide)
            | some c => exact ⟨c, rfl⟩
          have hcne : c ≠ "" := by
            intro h0
            rw [hc1, h0] at hpt
            exact absurd hpt (by decide)
          have hname : normalize_parameter_name db [] pname pid =
              (some c, (normalize_parameter_name db [] pname pid).2.1,
                (normalize_parameter_name db [] pname pid).2.2) := by
            rw [← hc1]
          have hgetD : (normalize_parameter_name db [] pname pid).1.getD "" =
              c := by rw [hc1]; rfl
          have hunit : convert_unit db
              (normalize_parameter_name db [] pname pid).2.2 value unit c
              pid =
              (some nv,
                (convert_unit db (normalize_parameter_name db [] pname
                  pid).2.2 value unit c pid).2.1,
                (convert_unit db (normalize_parameter_name db [] pname
                  pid).2.2 value unit c pid).2.2.1,
                (convert_unit db (normalize_parameter_name db [] pname
                  pid).2.2 value unit c pid).2.2.2.1,
                (convert_unit db (normalize_parameter_name db [] pname
                  pid).2.2 value unit c pid).2.2.2.2) := by
            rw [hgetD] at hnv
            rw [← hnv]
          refine ⟨?_, fun hn => absurd hn hnotname,
            fun hu => absurd hu hnotunit⟩
          have hrange : align_reference_range db
              (convert_unit db (normalize_parameter_name db [] pname pid).2.2
                value unit c pid).2.2.2.2 c
              (convert_unit db (normalize_parameter_name db [] pname pid).2.2
                value unit c pid).2.1 pid =
              ((align_reference_range db
                (convert_unit db (normalize_parameter_name db [] pname
                  pid).2.2 value unit c pid).2.2.2.2 c
                (convert_unit db (normalize_parameter_name db [] pname
                  pid).2.2 value unit c pid).2.1 pid).1,
               (align_reference_range db
                (convert_unit db (normalize_parameter_name db [] pname
                  pid).2.2 value unit c pid).2.2.2.2 c
                (convert_unit db (normalize_parameter_name db [] pname
                  pid).2.2 value unit c pid).2.1 pid).2.1,
               (align_reference_range db
                (convert_unit db (normalize_parameter_name db [] pname
                  pid).2.2 value unit c pid).2.2.2.2 c
                (convert_unit db (normalize_parameter_name db [] pname
                  pid).2.2 value unit c pid).2.1 pid).2.2.1,
               (align_reference_range db
                (convert_unit db (normalize_parameter_name db [] pname
                  pid).2.2 value unit c pid).2.2.2.2 c
                (convert_unit db (normalize_parameter_name db [] pname
                  pid).2.2 value unit c pid).2.1 pid).2.2.2) := rfl
          constructor
          · -- forward: a stage-named failure result is impossible here
            rintro ⟨hsucc, _, herr⟩
            cases hf : db.insert_normalized_raises with
            | true =>
                have heq := normalize_lab_data_fault db nu pid uid pname
                  value unit c _ _ nv _ _ _ _ _ _ _ _ hname hcne hunit
                  hrange hf
                rw [heq] at herr
                rcases herr with h | h
                · injection h with h1 _
                  exact (unexpected_ne_name_error pname h1).elim
                · injection h with h1 _
                  exact (unexpected_ne_unit_error (pyStrOptStr unit) h1).elim
            | false =>
                have heq := normalize_lab_data_success db nu pid uid pname
                  value unit c _ _ nv _ _ _ _ _ _ _ _ hname hcne hunit
                  hrange hf
                rw [heq] at hsucc
                exact Bool.noConfusion hsucc
          · rintro (hn | hu)
            · exact absurd hn hnotname
            · exact absurd hu hnotunit

/-- Witness for C2: "Unknown Test Parameter" has no name mapping
(stage-1 failure), and "Blood Glucose" with "unknown_unit" has no
conversion rule (stage-2 failure). -/
theorem normalize_failure_characterization_witness :
    ((normalize_lab_data exDB "u1" "p1" "usr" "Unknown Test Parameter" 5
        (some "mg/dL")).1.errors =
      ["Could not map parameter name: " ++ "Unknown Test Parameter"] ∧
      (normalize_lab_data exDB "u1" "p1" "usr" "Unknown Test Parameter" 5
        (some "mg/dL")).1.operations_logged = 1 ∧
      (normalize_lab_data exDB "u1" "p1" "usr" "Unknown Test Parameter" 5
        (some "mg/dL")).2.opsLog.length = 1 ∧
      (normalize_lab_data exDB "u1" "p1" "usr" "Unknown Test Parameter" 5
        (some "mg/dL")).2.statusUpdates = [("p1", "flagged")] ∧
      (normalize_lab_data exDB "u1" "p1" "usr" "Unknown Test Parameter" 5
        (some "mg/dL")).2.insertedParams = []) ∧
    ((normalize_lab_data exDB "u2" "p2" "usr" "Blood Glucose" 5
        (some "unknown_unit")).1.errors =
      ["Could not convert unit: " ++ pyStrOptStr (some "unknown_unit")] ∧
      (normalize_lab_data exDB "u2" "p2" "usr" "Blood Glucose" 5
        (some "unknown_unit")).1.operations_logged = 2 ∧
      (normalize_lab_data exDB "u2" "p2" "usr" "Blood Glucose" 5
        (some "unknown_unit")).2.opsLog.length = 2 ∧
      (normalize_lab_data exDB "u2" "p2" "usr" "Blood Glucose" 5
        (some "unknown_unit")).2.statusUpdates = [("p2", "flagged")] ∧
      (normalize_lab_data exDB "u2" "p2" "usr" "Blood Glucose" 5
        (some "unknown_unit")).2.insertedParams = []) :=
  ⟨(normalize_failure_characterization exDB "u1" "p1" "usr"
      "Unknown Test Parameter" 5 (some "mg/dL")).2.1 rfl,
   (normalize_failure_characterization exDB "u2" "p2" "usr"
      "Blood Glucose" 5 (some "unknown_unit")).2.2 ⟨rfl, rfl⟩⟩

/-! ## Decomposition of a run that passes the first two stages -/

/-- If the name stage produced a truthy canonical name and the unit
stage produced a normalized value, the three stage calls of the run can
be named explicitly. -/
lemma run_components (db : DB) (pname pid : String) (value : Rat)
    (unit : Option String) (nv : Rat)
    (hpt : pyTruthyStr (normalize_parameter_name db [] pname pid).1 = true)
    (hnv : (convert_unit db (normalize_parameter_name db [] pname pid).2.2
        value unit ((normalize_parameter_name db [] pname pid).1.getD "")
        pid).1 = some nv) :
    ∃ (c : String) (nc : Rat) (log1 : List OperationLogEntry)
      (su : Option String) (cf : Option Rat) (uc : Rat)
      (log2 : List OperationLogEntry) (rmin rmax : Option Rat) (rc : Rat)
      (log3 : List OperationLogEntry),
      normalize_parameter_name db [] pname pid = (some c, nc, log1) ∧
      c ≠ "" ∧
      convert_unit db log1 value unit c pid = (some nv, su, cf, uc, log2) ∧
      align_reference_range db log2 c su pid = (rmin, rmax, rc, log3) ∧
      log1.length = 1 ∧ log2.length = 2 ∧ log3.length = 3 := by
  obtain ⟨c, hc1⟩ : ∃ c,
      (normalize_parameter_name db [] pname pid).1 = some c := by
    cases h : (normalize_parameter_name db [] pname pid).1 with
    | none => rw [h] at hpt; exact absurd hpt (by decide)
    | some c => exact ⟨c, rfl⟩
  have hcne : c ≠ "" := by
    intro h0
    rw [hc1, h0] at hpt
    exact absurd hpt (by decide)
  have hgetD : (normalize_parameter_name db [] pname pid).1.getD "" = c := by
    rw [hc1]; rfl
  rw [hgetD] at hnv
  have hname : normalize_parameter_name db [] pname pid =
      (some c, (normalize_parameter_name db [] pname pid).2.1,
        (normalize_parameter_name db [] pname pid).2.2) := by
    rw [← hc1]
  have hunit : convert_unit db (normalize_parameter_name db [] pname pid).2.2
      value unit c pid =
      (some nv,
        (convert_unit db (normalize_parameter_name db [] pname pid).2.2
          value unit c pid).2.1,
        (convert_unit db (normalize_parameter_name db [] pname pid).2.2
          value unit c pid).2.2.1,
        (convert_unit db (normalize_parameter_name db [] pname pid).2.2
          value unit c pid).2.2.2.1,
        (convert_unit db (normalize_parameter_name db [] pname pid).2.2
          value unit c pid).2.2.2.2) := by
    rw [← hnv]
  have hl1 : ((normalize_parameter_name db [] pname pid).2.2).length = 1 :=
    normalize_parameter_name_log_length db [] pname pid
  have hl2 : ((convert_unit db (normalize_parameter_name db [] pname
      pid).2.2 value unit c pid).2.2.2.2).length = 2 := by
    rw [convert_unit_log_length, hl1]
  have hl3 : ((align_reference_range db
      (convert_unit db (normalize_parameter_name db [] pname pid).2.2 value
        unit c pid).2.2.2.2 c
      (convert_unit db (normalize_parameter_name db [] pname pid).2.2 value
        unit c pid).2.1 pid).2.2.2).length = 3 := by
    rw [align_reference_range_log_length, hl2]
  exact ⟨c, _, _, _, _, _, _, _, _, _, _, hname, hcne, hunit, rfl, hl1, hl2,
    hl3⟩

/-! ## C3: `operations_logged` versus the entries appended -/

/-- C3 (amended): on every attempt **not cut short by an unexpected
fault**, `operations_logged` equals the number of `OperationLogEntry`
items appended for the attempt: 1 when the name stage fails, 2 when the
unit stage fails, 3 on a complete run (one per stage attempted,
regardless of each stage's outcome).  (An attempt that faults at the
final insert reports `operations_logged = 0` although three entries
were appended; see the counterexample.) -/
theorem operations_logged_matches_appended (db : DB)
    (nu pid uid pname : String) (value : Rat) (unit : Option String)
    (hf : db.insert_normalized_raises = false) :
    ((normalize_lab_data db nu pid uid pname value
        unit).1.operations_logged =
      (normalize_lab_data db nu pid uid pname value
        unit).2.opsLog.length) ∧
    (nameStageFails db pname pid →
      (normalize_lab_data db nu pid uid pname value
        unit).1.operations_logged = 1) ∧
    (unitStageFails db pname pid value unit →
      (normalize_lab_data db nu pid uid pname value
        unit).1.operations_logged = 2) ∧
    (¬ nameStageFails db pname pid →
      ¬ unitStageFails db pname pid value unit →
      (normalize_lab_data db nu pid uid pname value
        unit).1.operations_logged = 3) := by
  have hlen1 : ((normalize_parameter_name db [] pname pid).2.2).length = 1 :=
    normalize_parameter_name_log_length db [] pname pid
  cases hpt : pyTruthyStr (normalize_parameter_name db [] pname pid).1 with
  | false =>
      have hnf : nameStageFails db pname pid := hpt
      have heq := normalize_lab_data_name_fail db nu pid uid pname value unit
        hpt
      rw [heq]
      refine ⟨rfl, fun _ => hlen1, fun hu => absurd hu.1 (by
        rw [hpt]; decide), fun hn _ => absurd hnf hn⟩
  | true =>
      cases hnv : (convert_unit db
          (normalize_parameter_name db [] pname pid).2.2 value unit
          ((normalize_parameter_name db [] pname pid).1.getD "") pid).1 with
      | none =>
          have hlen2 : ((convert_unit db
              (normalize_parameter_name db [] pname pid).2.2 value unit
              ((normalize_parameter_name db [] pname pid).1.getD "")
              pid).2.2.2.2).length = 2 := by
            rw [convert_unit_log_length, hlen1]
          have heq := normalize_lab_data_unit_fail db nu pid uid pname value
            unit hpt hnv
          rw [heq]
          exact ⟨rfl, fun hn => absurd hn (by
              intro h; rw [h] at hpt; exact Bool.noConfusion hpt),
            fun _ => hlen2, fun _ hu => absurd ⟨hpt, hnv⟩ hu⟩
      | some nv =>
          obtain ⟨c, nc, log1, su, cf, uc, log2, rmin, rmax, rc, log3, hname,
            hcne, hunit, hrange, hl1, hl2, hl3⟩ :=
            run_components db pname pid value unit nv hpt hnv
          have heq := normalize_lab_data_success db nu pid uid pname value
            unit c nc log1 nv su cf uc log2 rmin rmax rc log3 hname hcne
            hunit hrange hf
          rw [heq]
          exact ⟨rfl, fun hn => absurd hpt (by rw [hn]; decide),
            fun hu => absurd hu.2 (by
              rw [show (normalize_parameter_name db [] pname
                pid).1.getD "" = c by rw [hname]; rfl,
                show (normalize_parameter_name db [] pname pid).2.2 = log1
                  by rw [hname], hunit]
              simp),
            fun _ _ => hl3⟩

/-- Counterexample for C3 as stated: on the fault path all three
stages appended their entries, yet the result reports
`operations_logged = 0`. -/
theorem operations_logged_mismatch_counterexample :
    (normalize_lab_data exDBFault "u1" "p1" "usr" "Blood Glucose" 117
      (some "mg/dL")).2.opsLog.length = 3 ∧
    (normalize_lab_data exDBFault "u1" "p1" "usr" "Blood Glucose" 117
      (some "mg/dL")).1.operations_logged = 0 ∧
    (normalize_lab_data exDBFault "u1" "p1" "usr" "Blood Glucose" 117
      (some "mg/dL")).1.operations_logged ≠
      (normalize_lab_data exDBFault "u1" "p1" "usr" "Blood Glucose" 117
        (some "mg/dL")).2.opsLog.length :=
  ⟨rfl, rfl, by decide⟩

/-- Witness for C3 (amended): a complete no-fault run logs 3 and
reports 3. -/
theorem operations_logged_matches_appended_witness :
    (normalize_lab_data exDB "u1" "p1" "usr" "Blood Glucose" 117
      (some "mg/dL")).1.operations_logged =
      (normalize_lab_data exDB "u1" "p1" "usr" "Blood Glucose" 117
        (some "mg/dL")).2.opsLog.length ∧
    (normalize_lab_data exDB "u1" "p1" "usr" "Blood Glucose" 117
      (some "mg/dL")).1.operations_logged = 3 :=
  ⟨(operations_logged_matches_appended exDB "u1" "p1" "usr" "Blood Glucose"
      117 (some "mg/dL") rfl).1,
   (operations_logged_matches_appended exDB "u1" "p1" "usr" "Blood Glucose"
      117 (some "mg/dL") rfl).2.2.2
      (by
        intro h
        have h2 : pyTruthyStr (normalize_parameter_name exDB []
            "Blood Glucose" "p1").1 = false := h
        exact absurd h2 (by decide))
      (by
        intro h
        have h2 := h.2
        exact absurd h2 (by decide))⟩

/-! ## C5: when the audit logs are flushed -/

/-- C5 (amended): on every attempt that reaches one of the terminal
states SUCCESS, FAILED_NAME or FAILED_UNIT, `save_audit_logs` is
invoked exactly once, after all stages that ran, flushing every
accumulated entry in append order.  (An attempt cut short by an
unexpected fault — e.g. the `normalized_parameters` insert raising —
never invokes it; see the counterexample.) -/
theorem audit_flush_on_terminal_states (db : DB) (nu pid uid pname : String)
    (value : Rat) (unit : Option String)
    (h : db.insert_normalized_raises = false ∨ nameStageFails db pname pid ∨
      unitStageFails db pname pid value unit) :
    (normalize_lab_data db nu pid uid pname value unit).2.auditSaves = 1 ∧
    (normalize_lab_data db nu pid uid pname value unit).2.savedLogs =
      (normalize_lab_data db nu pid uid pname value unit).2.opsLog := by
  cases hpt : pyTruthyStr (normalize_parameter_name db [] pname pid).1 with
  | false =>
      have heq := normalize_lab_data_name_fail db nu pid uid pname value unit
        hpt
      rw [heq]
      exact ⟨rfl, rfl⟩
  | true =>
      cases hnv : (convert_unit db
          (normalize_parameter_name db [] pname pid).2.2 value unit
          ((normalize_parameter_name db [] pname pid).1.getD "") pid).1 with
      | none =>
          have heq := normalize_lab_data_unit_fail db nu pid uid pname value
            unit hpt hnv
          rw [heq]
          exact ⟨rfl, rfl⟩
      | some nv =>
          have hf : db.insert_normalized_raises = false := by
            rcases h with hf | hn | hu
            · exact hf
            · rw [nameStageFails, hpt] at hn
              exact absurd hn (by decide)
            · rw [hu.2] at hnv
              exact Option.noConfusion hnv
          obtain ⟨c, nc, log1, su, cf, uc, log2, rmin, rmax, rc, log3, hname,
            hcne, hunit, hrange, hl1, hl2, hl3⟩ :=
            run_components db pname pid value unit nv hpt hnv
          have heq := normalize_lab_data_success db nu pid uid pname value
            unit c nc log1 nv su cf uc log2 rmin rmax rc log3 hname hcne
            hunit hrange hf
          rw [heq]
          exact ⟨rfl, rfl⟩

/-- Counterexample for C5 as stated: the fault path runs all three
stages (three entries accumulated) but never invokes
`save_audit_logs` — not "exactly once". -/
theorem audit_flush_skipped_counterexample :
    (normalize_lab_data exDBFault "u1" "p1" "usr" "Blood Glucose" 117
      (some "mg/dL")).2.auditSaves = 0 ∧
    (normalize_lab_data exDBFault "u1" "p1" "usr" "Blood Glucose" 117
      (some "mg/dL")).2.auditSaves ≠ 1 ∧
    (normalize_lab_data exDBFault "u1" "p1" "usr" "Blood Glucose" 117
      (some "mg/dL")).2.opsLog.length = 3 ∧
    (normalize_lab_data exDBFault "u1" "p1" "usr" "Blood Glucose" 117
      (some "mg/dL")).2.savedLogs = [] :=
  ⟨rfl, by decide, rfl, rfl⟩

/-- Witness for C5 (amended): a successful attempt flushes its logs
exactly once. -/
theorem audit_flush_on_terminal_states_witness :
    (normalize_lab_data exDB "u1" "p1" "usr" "Blood Glucose" 117
      (some "mg/dL")).2.auditSaves = 1 ∧
    (normalize_lab_data exDB "u1" "p1" "usr" "Blood Glucose" 117
      (some "mg/dL")).2.savedLogs =
      (normalize_lab_data exDB "u1" "p1" "usr" "Blood Glucose" 117
        (some "mg/dL")).2.opsLog :=
  audit_flush_on_terminal_states exDB "u1" "p1" "usr" "Blood Glucose" 117
    (some "mg/dL") (Or.inl rfl)

/-! ## C9: overall confidence and the 0.7 review threshold -/

/-- C9: on a run that reaches the range stage and completes, the
confidence stored in the result and in the persisted row is the
arithmetic mean of the three stage confidences as returned, and
`flagged_for_review` is `true` with a "Low confidence" warning appended
exactly when that mean is below `0.7` (otherwise it stays `false`). -/
theorem overall_confidence_mean_threshold (db : DB)
    (nu pid uid pname : String) (value : Rat) (unit : Option String)
    (c : String) (nc : Rat) (log1 : List OperationLogEntry) (nv : Rat)
    (su : Option String) (cf : Option Rat) (uc : Rat)
    (log2 : List OperationLogEntry) (rmin rmax : Option Rat) (rc : Rat)
    (log3 : List OperationLogEntry)
    (hname : normalize_parameter_name db [] pname pid = (some c, nc, log1))
    (hc : c ≠ "")
    (hunit : convert_unit db log1 value unit c pid =
      (some nv, su, cf, uc, log2))
    (hrange : align_reference_range db log2 c su pid =
      (rmin, rmax, rc, log3))
    (hf : db.insert_normalized_raises = false) :
    (normalize_lab_data db nu pid uid pname value unit).1.success = true ∧
    (normalize_lab_data db nu pid uid pname value
        unit).1.normalized_parameter =
      some { normalized_parameter_id := nu, original_parameter_id := pid,
             user_id := uid, canonical_name := c, original_value := value,
             original_unit := unit, normalized_value := nv,
             standard_unit := su, conversion_factor := cf,
             reference_range_min := rmin, reference_range_max := rmax,
             normalization_confidence := (nc + uc + rc) / 3 } ∧
    (normalize_lab_data db nu pid uid pname value unit).2.insertedParams =
      [{ normalized_parameter_id := nu, original_parameter_id := pid,
         user_id := uid, canonical_name := c, original_value := value,
         original_unit := unit, normalized_value := nv,
         standard_unit := su, conversion_factor := cf,
         reference_range_min := rmin, reference_range_max := rmax,
         normalization_confidence := (nc + uc + rc) / 3 }] ∧
    ((normalize_lab_data db nu pid uid pname value
        unit).1.flagged_for_review = true ↔ (nc + uc + rc) / 3 < 7/10) ∧
    ((nc + uc + rc) / 3 < 7/10 →
      (normalize_lab_data db nu pid uid pname value unit).1.warnings =
        (if rmin.isNone && rmax.isNone then
          ["No reference range available for " ++ c]
         else []) ++
        ["Low confidence score: " ++ fmt2 ((nc + uc + rc) / 3)]) ∧
    (¬ ((nc + uc + rc) / 3 < 7/10) →
      (normalize_lab_data db nu pid uid pname value
        unit).1.flagged_for_review = false ∧
      (normalize_lab_data db nu pid uid pname value unit).1.warnings =
        (if rmin.isNone && rmax.isNone then
          ["No reference range available for " ++ c]
         else [])) := by
  have heq := normalize_lab_data_success db nu pid uid pname value unit c nc
    log1 nv su cf uc log2 rmin rmax rc log3 hname hc hunit hrange hf
  rw [heq]
  refine ⟨rfl, rfl, rfl, ?_, ?_, ?_⟩
  · show decide ((nc + uc + rc) / 3 < 7/10) = true ↔
      (nc + uc + rc) / 3 < 7/10
    exact decide_eq_true_iff
  · intro hlow
    show (if rmin.isNone && rmax.isNone then
        ["No reference range available for " ++ c]
       else []) ++
      (if decide ((nc + uc + rc) / 3 < 7/10) then
        ["Low confidence score: " ++ fmt2 ((nc + uc + rc) / 3)]
       else []) = _
    rw [decide_eq_true hlow]
    simp
  · intro hhigh
    constructor
    · show decide ((nc + uc + rc) / 3 < 7/10) = false
      exact decide_eq_false hhigh
    · show (if rmin.isNone && rmax.isNone then
          ["No reference range available for " ++ c]
         else []) ++
        (if decide ((nc + uc + rc) / 3 < 7/10) then
          ["Low confidence score: " ++ fmt2 ((nc + uc + rc) / 3)]
         else []) = _
      rw [decide_eq_false hhigh]
      simp

/-- Witness for C9: the Blood Glucose run has stage confidences
0.95, 0.98, 0.95; their mean 0.96 is at least 0.7, so the run is not
flagged and carries no warning. -/
theorem overall_confidence_mean_threshold_witness :
    (normalize_lab_data exDB "u1" "p1" "usr" "Blood Glucose" 117
      (some "mg/dL")).1.success = true ∧
    (normalize_lab_data exDB "u1" "p1" "usr" "Blood Glucose" 117
      (some "mg/dL")).1.normalized_parameter =
      some { normalized_parameter_id := "u1", original_parameter_id := "p1",
             user_id := "usr", canonical_name := "glucose_fasting",
             original_value := 117, original_unit := some "mg/dL",
             normalized_value := 117 * (555/10000),
             standard_unit := some "mmol/L",
             conversion_factor := some (555/10000),
             reference_range_min := pyTruthyRat (some (39/10)),
             reference_range_max := pyTruthyRat (some (61/10)),
             normalization_confidence := (95/100 + 98/100 + 95/100) / 3 } ∧
    (normalize_lab_data exDB "u1" "p1" "usr" "Blood Glucose" 117
      (some "mg/dL")).1.flagged_for_review = false := by
  have h := overall_confidence_mean_threshold exDB "u1" "p1" "usr"
    "Blood Glucose" 117 (some "mg/dL") "glucose_fasting" (95/100) _
    (117 * (555/10000)) (some "mmol/L") (some (555/10000)) (98/100) _
    (pyTruthyRat (some (39/10))) (pyTruthyRat (some (61/10))) (95/100) _
    rfl (by decide) rfl rfl rfl
  exact ⟨h.1, h.2.1, (h.2.2.2.2.2 (by norm_num)).1⟩

/-! ## C4: batch invariants -/

lemma batchStep_total (db : DB) (uuids : Nat → String)
    (acc : BatchResult × Nat) (p : BatchParam) :
    (batchStep db uuids acc p).1.total = acc.1.total := rfl

lemma batchStep_counts (db : DB) (uuids : Nat → String)
    (acc : BatchResult × Nat) (p : BatchParam) :
    (batchStep db uuids acc p).1.successful +
      (batchStep db uuids acc p).1.failed =
      acc.1.successful + acc.1.failed + 1 := by
  by_cases hs : (runOne db (uuids acc.2) p).success <;>
    simp [batchStep, hs] <;> omega

lemma batchStep_results (db : DB) (uuids : Nat → String)
    (acc : BatchResult × Nat) (p : BatchParam) :
    (batchStep db uuids acc p).1.results =
      acc.1.results ++ [runOne db (uuids acc.2) p] := rfl

lemma batchStep_idx (db : DB) (uuids : Nat → String)
    (acc : BatchResult × Nat) (p : BatchParam) :
    (batchStep db uuids acc p).2 = acc.2 + 1 := rfl

lemma batch_foldl_spec (db : DB) (uuids : Nat → String) :
    ∀ (ps : List BatchParam) (acc : BatchResult × Nat),
      (ps.foldl (batchStep db uuids) acc).1.total = acc.1.total ∧
      (ps.foldl (batchStep db uuids) acc).1.successful +
        (ps.foldl (batchStep db uuids) acc).1.failed =
        acc.1.successful + acc.1.failed + ps.length ∧
      (ps.foldl (batchStep db uuids) acc).1.results =
        acc.1.results ++ runAll db uuids acc.2 ps := by
  intro ps
  induction ps with
  | nil => intro acc; simp [runAll]
  | cons p ps ih =>
      intro acc
      obtain ⟨h1, h2, h3⟩ := ih (batchStep db uuids acc p)
      refine ⟨?_, ?_, ?_⟩
      · rw [List.foldl_cons, h1, batchStep_total]
      · rw [List.foldl_cons, h2, batchStep_counts]
        simp [List.length_cons]
        omega
      · rw [List.foldl_cons, h3, batchStep_results, batchStep_idx]
        simp [runAll]

lemma runAll_length (db : DB) (uuids : Nat → String) :
    ∀ (ps : List BatchParam) (i : Nat),
      (runAll db uuids i ps).length = ps.length := by
  intro ps
  induction ps with
  | nil => intro i; rfl
  | cons p ps ih => intro i; simp [runAll, ih]

lemma runAll_get? (db : DB) (uuids : Nat → String) :
    ∀ (ps : List BatchParam) (j i : Nat),
      (runAll db uuids j ps).get? i =
        (ps.get? i).map (fun p => runOne db (uuids (j + i)) p) := by
  intro ps
  induction ps with
  | nil => intro j i; simp [runAll]
  | cons p ps ih =>
      intro j i
      cases i with
      | zero => simp [runAll]
      | succ i =>
          simp only [runAll, List.get?_cons_succ, ih (j + 1) i]
          have : j + 1 + i = j + (i + 1) := by omega
          rw [this]

/-- C4: `normalize_batch` returns `successful + failed = total =
len(results)`, `results[i]` is the single-parameter result of
`parameters[i]` (input order preserved), and each item is processed
independently of the outcomes of the others. -/
theorem normalize_batch_invariants (db : DB) (uuids : Nat → String)
    (parameters : List BatchParam) :
    (normalize_batch db uuids parameters).total = parameters.length ∧
    (normalize_batch db uuids parameters).successful +
      (normalize_batch db uuids parameters).failed =
      (normalize_batch db uuids parameters).total ∧
    (normalize_batch db uuids parameters).results.length =
      (normalize_batch db uuids parameters).total ∧
    (∀ i : Nat, (normalize_batch db uuids parameters).results.get? i =
      (parameters.get? i).map (fun p => runOne db (uuids i) p)) := by
  obtain ⟨h1, h2, h3⟩ := batch_foldl_spec db uuids parameters
    ({ total := parameters.length, successful := 0, failed := 0,
       flagged := 0, results := [] }, 0)
  have htot : (normalize_batch db uuids parameters).total =
      parameters.length := h1
  have hres : (normalize_batch db uuids parameters).results =
      runAll db uuids 0 parameters := by
    rw [show (normalize_batch db uuids parameters).results =
      (parameters.foldl (batchStep db uuids)
        ({ total := parameters.length, successful := 0, failed := 0,
           flagged := 0, results := [] }, 0)).1.results from rfl, h3]
    simp
  refine ⟨htot, ?_, ?_, ?_⟩
  · rw [htot]
    have := h2
    simpa using this
  · rw [htot, hres, runAll_length]
  · intro i
    rw [hres, runAll_get? db uuids parameters 0 i]
    simp

end LabNorm
